import Mathlib

/-!
Verification of the per-call conversation orchestrator of the
twilio-deepgram voice-agent repository.

The definitions below are a shallow embedding of the orchestration code:

* the per-call memory record and the `parseMemoryUpdate` annotation parser
  of `src/server.js` (first variant, lines 231-255);
* the per-connection session state, the `handleUserUtterance` single-flight
  turn processor, the Deepgram `Transcript` and `UtteranceEnd` handlers and
  the safety timer of `src/server.js` (lines 260-408), modelled as a step
  function over an explicit event stream.  The asynchronous
  `handleUserUtterance` body is split at its single await point: the
  synchronous part up to the GPT call is `handleUserUtteranceStart`, and the
  continuation after the GPT call returns is the `Event.gptReturn` branch of
  `step`.  Timers are modelled with a generation counter: arming a timer
  increments the generation, and a fire event is only honoured when it
  carries the currently armed generation (a cleared JavaScript timer never
  fires);
* the `speak` TTS router of `src/services/tts.service.js`;
* the global `CURRENT_CALL_SID` reply-routing of the variant at
  `src/unnamed/part_000` lines 512-717.
-/

/- ===================== Memory and parseMemoryUpdate ===================== -/

/-- The per-call memory record of `src/server.js` lines 274-282: seven fixed
keys, each initially `null`. -/
structure Memory where
  name : Option String
  email : Option String
  phone : Option String
  intent : Option String
  budget : Option String
  location : Option String
  timeline : Option String
deriving DecidableEq

/-- The memory object created at connection time (all fields `null`). -/
def initialMemory : Memory := ⟨none, none, none, none, none, none, none⟩

/-- `memory.hasOwnProperty(k)` for the fixed seven-key memory object. -/
def memHasKey (k : String) : Bool :=
  k = ("name") || k = ("email") || k = ("phone") || k = ("intent") ||
  k = ("budget") || k = ("location") || k = ("timeline")

/-- Read one key of the memory record. -/
def memGet (m : Memory) (k : String) : Option String :=
  if k = ("name") then m.name
  else if k = ("email") then m.email
  else if k = ("phone") then m.phone
  else if k = ("intent") then m.intent
  else if k = ("budget") then m.budget
  else if k = ("location") then m.location
  else if k = ("timeline") then m.timeline
  else none

/-- `memory[k] = v` for a key of the fixed schema (any other key is left
untouched; the caller guards with `hasOwnProperty`). -/
def memSet (m : Memory) (k v : String) : Memory :=
  if k = ("name") then { m with name := some v }
  else if k = ("email") then { m with email := some v }
  else if k = ("phone") then { m with phone := some v }
  else if k = ("intent") then { m with intent := some v }
  else if k = ("budget") then { m with budget := some v }
  else if k = ("location") then { m with location := some v }
  else if k = ("timeline") then { m with timeline := some v }
  else m

/-- The literal characters of the annotation opener searched for by the
regex `\[MEM:\s*([^\]]+)\]`. -/
def memTag : List Char := ['[', 'M', 'E', 'M', ':']

/-- Given the characters directly after an occurrence of `[MEM:`, return the
(nonempty) run of characters up to the closing bracket together with the
remainder after the bracket, or `none` when the regex cannot match at this
start position. -/
def grabBody (cs : List Char) : Option (List Char × List Char) :=
  let body := cs.takeWhile (fun c => c ≠ ']')
  if body.isEmpty then none
  else
    match cs.drop body.length with
    | ']' :: rest => some (body, rest)
    | _ => none

/-- First match of `\[MEM:\s*([^\]]+)\]` in a character list: returns the
text before the match, the raw bracket body, and the text after the closing
bracket.  Like the regex engine, a position where `[MEM:` occurs but no
nonempty `]`-terminated body follows is skipped and the search resumes one
character later. -/
def findMem : List Char → Option (List Char × List Char × List Char)
  | [] => none
  | c :: cs =>
    if memTag.isPrefixOf (c :: cs) then
      match grabBody ((c :: cs).drop 5) with
      | some (body, post) => some ([], body, post)
      | none =>
        match findMem cs with
        | some (pre, body, post) => some (c :: pre, body, post)
        | none => none
    else
      match findMem cs with
      | some (pre, body, post) => some (c :: pre, body, post)
      | none => none

/-- The capture group `([^\]]+)` of the match regex: the greedy `\s*` first
eats the leading whitespace of the bracket body; when the body is entirely
whitespace, backtracking leaves exactly the last character to the capture. -/
def captureOf (body : List Char) : List Char :=
  let cap := body.dropWhile Char.isWhitespace
  if cap.isEmpty then body.drop (body.length - 1) else cap

/-- JavaScript `String.prototype.trim`: remove whitespace from both ends.
Defined by structural recursion (via `dropWhile` and `reverse`) so that it
evaluates inside the kernel. -/
def jsTrim (s : String) : String :=
  String.mk (((s.data.dropWhile Char.isWhitespace).reverse.dropWhile
      Char.isWhitespace).reverse)

/-- JavaScript `String.prototype.split` with a one-character separator:
`splitChar sep cs` returns the (always nonempty) list of separator-free
groups. -/
def splitChar (sep : Char) : List Char → List (List Char)
  | [] => [[]]
  | c :: cs =>
    let r := splitChar sep cs
    if c = sep then [] :: r
    else
      match r with
      | [] => [[c]]
      | g :: gs => (c :: g) :: gs

/-- JavaScript `Array.prototype.join` with a one-character separator. -/
def joinChar (sep : Char) : List (List Char) → List Char
  | [] => []
  | [g] => g
  | g :: gs => g ++ sep :: joinChar sep gs

/-- One iteration of the `updates.split(",").forEach(...)` loop of
`parseMemoryUpdate` (`src/server.js` lines 240-249): split the pair at the
first `=` (re-joining the remaining parts, as `valueParts.join("=")` does),
trim both sides, and write the value only for an existing memory key with a
nonempty value different from the literal string `null`. -/
def applyPair (m : Memory) (pair : String) : Memory :=
  match splitChar ('=') pair.data with
  | [] => m
  | key :: valueParts =>
    let value := jsTrim (String.mk (joinChar ('=') valueParts))
    let cleanKey := jsTrim (String.mk key)
    if memHasKey cleanKey && (value != ("")) && (value != ("null"))
    then memSet m cleanKey value else m

/-- `parseMemoryUpdate` of `src/server.js` lines 231-255.  Returns the
response text with the first `[MEM: ...]` annotation (and the whitespace
after it) removed and trimmed, together with the updated memory; when no
annotation matches, the response is returned verbatim and the memory is
untouched. -/
def parseMemoryUpdate (response : String) (memory : Memory) : String × Memory :=
  match findMem response.data with
  | none => (response, memory)
  | some (pre, body, post) =>
    let pairs := (splitChar (',') (captureOf body)).map String.mk
    let cleanResponse := jsTrim (String.mk (pre ++ post.dropWhile Char.isWhitespace))
    (cleanResponse, pairs.foldl applyPair memory)

/- ===================== Session state and event step ===================== -/

/-- Configuration constants of `src/server.js` lines 63-67. -/
def MIN_CHARS : Nat := 5

/-- Maximum conversation history length (`src/server.js` line 64). -/
def MAX_HISTORY : Nat := 12

/-- Safety-timer duration in milliseconds (`src/server.js` line 65). -/
def SAFETY_TIMEOUT : Nat := 3000

/-- The fixed apology returned by `askGPT` when the GPT call throws
(`src/server.js` line 224). -/
def FALLBACK_REPLY : String :=
  "Désolée, je n\x27ai pas bien compris. Pouvez-vous répéter s\x27il vous plaît?"

/-- One `{role, content}` entry of `conversationHistory`. -/
structure HistEntry where
  role : String
  content : String
deriving DecidableEq

/-- The mutable per-connection closure state of `src/server.js` lines
266-285, together with the bookkeeping needed to model timers and the
in-flight GPT call.  `armed` holds the generation and deadline of the
currently pending safety timer (`none` when cleared or consumed);
`timerGen` counts how many timers have ever been armed; `pendingTurn` holds
the text of the turn whose GPT call is awaited. -/
structure SessionState where
  utteranceBuffer : String
  isProcessing : Bool
  lastSpeechTime : Nat
  timerGen : Nat
  armed : Option (Nat × Nat)
  memory : Memory
  conversationHistory : List HistEntry
  pendingTurn : Option String
deriving DecidableEq

/-- The state of a fresh WebSocket connection (`src/server.js` lines
266-285), at wall-clock time `t0`. -/
def initState (t0 : Nat) : SessionState :=
  { utteranceBuffer := ""
    isProcessing := false
    lastSpeechTime := t0
    timerGen := 0
    armed := none
    memory := initialMemory
    conversationHistory := []
    pendingTurn := none }

/-- Events consumed by one session, in arrival order: a Deepgram
`Transcript` result (interim or final) at time `t`, the Deepgram
`UtteranceEnd` signal, the firing of the safety timer of generation `g`,
and the completion of the awaited `askGPT` call (`none` when the underlying
OpenAI call threw). -/
inductive Event
  | transcript (t : Nat) (isFinal : Bool) (text : String)
  | utteranceEnd (t : Nat)
  | safetyFire (t : Nat) (g : Nat)
  | gptReturn (t : Nat) (result : Option String)
deriving DecidableEq

/-- Observable actions emitted while processing events: `finalize` marks the
handing of a nonempty trimmed utterance to `handleUserUtterance`,
`startGen` marks an accepted turn issuing its GPT call, and `emitReply`
marks the completed turn emitting its cleaned reply (the hand-off point to
response delivery, `src/server.js` lines 332-337). -/
inductive SAction
  | finalize (text : String)
  | startGen (text : String)
  | emitReply (text : String)
deriving DecidableEq

/-- The synchronous part of `handleUserUtterance` (`src/server.js` lines
290-312), up to the `await askGPT`: the minimum-length gate, the
single-flight gate, pushing the caller turn onto the history and issuing
the GPT call. -/
def handleUserUtteranceStart (st : SessionState) (text : String) :
    SessionState × List SAction :=
  if text.length < MIN_CHARS then (st, [])
  else if st.isProcessing then (st, [])
  else
    ({ st with
        isProcessing := true
        conversationHistory := st.conversationHistory ++ [⟨"user", text⟩]
        pendingTurn := some text },
      [SAction.startGen text])

/-- The reply text observed by `handleUserUtterance`: `askGPT` returns the
trimmed streamed response on success and the fixed apology when the OpenAI
call throws (`src/server.js` lines 219-224). -/
def rawReplyOf (result : Option String) : String :=
  match result with
  | some s => jsTrim s
  | none => FALLBACK_REPLY

/-- One event of the per-session event stream.

* `transcript` (`src/server.js` lines 368-395): empty transcripts are
  ignored; an interim result only produces debug output; a final result is
  appended to the utterance buffer with a space, records the speech time,
  and atomically clears and re-arms the safety timer with a fresh
  generation and a full `SAFETY_TIMEOUT` deadline.
* `utteranceEnd` (lines 398-408): clears the safety timer, empties the
  buffer, and hands a nonempty trimmed buffer to `handleUserUtterance`.
* `safetyFire` (lines 386-393): honoured only for the currently armed
  generation (a cleared timer never fires); consumes the timer and hands a
  nonempty trimmed buffer to `handleUserUtterance`, then empties the buffer.
* `gptReturn` (lines 312-343): the continuation of the in-flight turn:
  parse memory updates out of the raw reply, push the cleaned reply, trim
  the history to the cap by splicing off the two oldest entries, emit the
  reply and return to idle (the `finally` clause). -/
def step (st : SessionState) : Event → SessionState × List SAction
  | Event.transcript t isFinal text =>
    if text = ("") then (st, [])
    else if isFinal then
      ({ st with
          utteranceBuffer := st.utteranceBuffer ++ (" ") ++ text
          lastSpeechTime := t
          timerGen := st.timerGen + 1
          armed := some (st.timerGen + 1, t + SAFETY_TIMEOUT) }, [])
    else (st, [])
  | Event.utteranceEnd _t =>
    let finalText := jsTrim st.utteranceBuffer
    let st1 := { st with armed := none, utteranceBuffer := ("") }
    if finalText = ("") then (st1, [])
    else
      let r := handleUserUtteranceStart st1 finalText
      (r.1, SAction.finalize finalText :: r.2)
  | Event.safetyFire _t g =>
    match st.armed with
    | none => (st, [])
    | some (g2, _d) =>
      if g = g2 then
        let trimmed := jsTrim st.utteranceBuffer
        let st1 := { st with armed := none }
        if trimmed = ("") then (st1, [])
        else
          let r := handleUserUtteranceStart st1 trimmed
          ({ r.1 with utteranceBuffer := ("") }, SAction.finalize trimmed :: r.2)
      else (st, [])
  | Event.gptReturn _t result =>
    match st.pendingTurn with
    | none => (st, [])
    | some _ =>
      let raw := rawReplyOf result
      let pm := parseMemoryUpdate raw st.memory
      let hist1 := st.conversationHistory ++ [⟨"assistant", pm.1⟩]
      let hist2 := if MAX_HISTORY < hist1.length then hist1.drop 2 else hist1
      ({ st with
          memory := pm.2
          conversationHistory := hist2
          isProcessing := false
          pendingTurn := none }, [SAction.emitReply pm.1])

/-- Process a list of events in arrival order, collecting emitted actions. -/
def run (st : SessionState) : List Event → SessionState × List SAction
  | [] => (st, [])
  | e :: es =>
    let r1 := step st e
    let r2 := run r1.1 es
    (r2.1, r1.2 ++ r2.2)

/-- Number of `finalize` actions in a list. -/
def countFinalize : List SAction → Nat
  | [] => 0
  | SAction.finalize _ :: as => countFinalize as + 1
  | _ :: as => countFinalize as

/-- Number of `startGen` actions in a list. -/
def countStart : List SAction → Nat
  | [] => 0
  | SAction.startGen _ :: as => countStart as + 1
  | _ :: as => countStart as

/-- Number of `emitReply` actions in a list. -/
def countReply : List SAction → Nat
  | [] => 0
  | SAction.emitReply _ :: as => countReply as + 1
  | _ :: as => countReply as

/-- Number of turns in flight (the `isProcessing` flag as a count). -/
def flight (st : SessionState) : Nat := if st.isProcessing then 1 else 0

/-- Structural session invariant: the `isProcessing` flag is set exactly
while a GPT call is awaited. -/
def FlightInv (st : SessionState) : Prop := st.isProcessing = st.pendingTurn.isSome

/-- The history consists of complete caller/reply exchanges: entries
alternate a `user` turn followed by an `assistant` turn. -/
def pairsForm : List HistEntry → Bool
  | [] => true
  | [_] => false
  | u :: a :: rest => u.role == ("user") && a.role == ("assistant") && pairsForm rest

/- ===================== TTS router (tts.service.js) ===================== -/

/-- Outcome of one TTS provider call: a hosted audio URL, or a thrown
error. -/
inductive TTSOut
  | ok (url : String)
  | err (msg : String)
deriving DecidableEq

/-- Whether a `speak` outcome delivered any audio. -/
def producesAudio : TTSOut → Bool
  | TTSOut.ok _ => true
  | TTSOut.err _ => false

/-- `speak` of `src/services/tts.service.js` lines 28-52 (Aura-first
variant): reject empty text, try Deepgram Aura, fall back to Google TTS on
failure; a Google failure propagates to the caller.  The provider outcomes
are passed in as oracles. -/
def speak (text : String) (auraResult googleResult : TTSOut) : TTSOut :=
  if jsTrim text = ("") then TTSOut.err ("TTS: empty text")
  else
    match auraResult with
    | TTSOut.ok url => TTSOut.ok url
    | TTSOut.err _ => googleResult

/-- `speak` of `src/services/tts.service.js` lines 7-14 (Google-first
variant): try Google TTS, fall back to Deepgram on failure; a Deepgram
failure propagates. -/
def speakGoogleFirst (googleResult deepgramResult : TTSOut) : TTSOut :=
  match googleResult with
  | TTSOut.ok url => TTSOut.ok url
  | TTSOut.err _ => deepgramResult

/- ============ Global CURRENT_CALL_SID routing (part_000) ============ -/

/-- The cross-session state of the variant at `src/unnamed/part_000` lines
512-717: the module-level global `CURRENT_CALL_SID` (line 551) shared by
all connections, plus the per-connection `hasReplied` flags of two
concurrently active media connections A and B. -/
structure World where
  currentCallSid : Option String
  hasRepliedA : Bool
  hasRepliedB : Bool
deriving DecidableEq

/-- Two concurrent calls, before any events. -/
def initWorld : World := ⟨none, false, false⟩

/-- Events of the two-session world: the `/gather-response` webhook of some
call (which overwrites the global `CURRENT_CALL_SID`, line 593), and a
Deepgram transcript arriving on connection A (`sessionA = true`) or B. -/
inductive CEvent
  | gatherResponse (sid : String)
  | transcriptFor (sessionA : Bool) (text : String)
deriving DecidableEq

/-- One event of the two-session world, following the `Transcript` handler
at `src/unnamed/part_000` lines 641-688: drop empty or short transcripts,
reply at most once per connection, obtain the GPT reply for the transcript
text alone (the handler builds a fresh message list each time), and route
the reply to the call named by the shared global `CURRENT_CALL_SID`.
Emitted routing instructions are `(callSid, replyText)` pairs. -/
def cstep (gpt : String → String) (w : World) :
    CEvent → World × List (String × String)
  | CEvent.gatherResponse sid => ({ w with currentCallSid := some sid }, [])
  | CEvent.transcriptFor sessionA text =>
    if text = ("") then (w, [])
    else if text.length < 4 then (w, [])
    else
      let replied := if sessionA then w.hasRepliedA else w.hasRepliedB
      if replied then (w, [])
      else
        let w1 := if sessionA then { w with hasRepliedA := true }
                  else { w with hasRepliedB := true }
        match w1.currentCallSid with
        | none => (w1, [])
        | some sid => (w1, [(sid, gpt text)])

/-- Process a list of two-session events in arrival order. -/
def crun (gpt : String → String) (w : World) :
    List CEvent → World × List (String × String)
  | [] => (w, [])
  | e :: es =>
    let r1 := cstep gpt w e
    let r2 := crun gpt r1.1 es
    (r2.1, r1.2 ++ r2.2)

/- ===================== Auxiliary concrete inputs ===================== -/

/-- Whether one `key=value` pair of the annotation writes memory key `k`:
the pair parses to `k` with a schema key and a valid (nonempty, non-null)
value. -/
def pairUpdatesKey (k : String) (pair : String) : Bool :=
  match splitChar ('=') pair.data with
  | [] => false
  | key :: valueParts =>
    let value := jsTrim (String.mk (joinChar ('=') valueParts))
    (jsTrim (String.mk key) == k) && memHasKey (jsTrim (String.mk key)) &&
    (value != ("")) && (value != ("null"))

/- ===================== Concrete states and traces ===================== -/

/-- A session that is mid-turn: one finalized utterance has been accepted
and its GPT call is in flight. -/
def stMidTurn : SessionState :=
  (run (initState 0)
    [Event.transcript 0 true ("hello there how are you"), Event.utteranceEnd 100]).1

/-- Trace in which a second utterance is finalized while the first turn's
GPT call is still in flight. -/
def c1Events : List Event :=
  [Event.transcript 0 true ("hello there how are you"),
   Event.utteranceEnd 100,
   Event.transcript 200 true ("wait actually I changed my mind"),
   Event.utteranceEnd 300,
   Event.gptReturn 400 (some ("Great, how can I help?"))]

/-- An idle session with a buffered utterance that meets the length policy. -/
def c1IdleState : SessionState :=
  { initState 0 with utteranceBuffer := (" I want to sell my house ") }

/-- A session with a nonempty buffer and a pending safety timer. -/
def c3State : SessionState :=
  (run (initState 0) [Event.transcript 0 true ("buy a house now")]).1

/-- A session with a pending safety timer, for the interim-fragment
counterexample. -/
def c7State : SessionState :=
  (run (initState 0) [Event.transcript 0 true ("hello there")]).1

/-- A session whose buffered utterance is below the minimum length. -/
def c9State : SessionState :=
  { initState 0 with
    utteranceBuffer := ("  hi ")
    timerGen := 1
    armed := some (1, 3000) }

/-- A full history of six complete exchanges (twelve entries). -/
def c4Hist : List HistEntry :=
  [⟨"user", "q one ok"⟩, ⟨"assistant", "a one"⟩,
   ⟨"user", "q two ok"⟩, ⟨"assistant", "a two"⟩,
   ⟨"user", "q three ok"⟩, ⟨"assistant", "a three"⟩,
   ⟨"user", "q four ok"⟩, ⟨"assistant", "a four"⟩,
   ⟨"user", "q five ok"⟩, ⟨"assistant", "a five"⟩,
   ⟨"user", "q six ok"⟩, ⟨"assistant", "a six"⟩]

/-- An idle session at the history cap with a buffered seventh utterance. -/
def c4State : SessionState :=
  { initState 0 with
    conversationHistory := c4Hist
    utteranceBuffer := ("I want to sell my house") }

/-- One complete turn: a final fragment, the provider boundary signal, and
the GPT completion. -/
def c4Turn (q : String) : List Event :=
  [Event.transcript 0 true q, Event.utteranceEnd 0,
   Event.gptReturn 0 (some ("answer"))]

/-- Six complete turns followed by a seventh finalized utterance whose GPT
call is still in flight. -/
def c4Trace : List Event :=
  c4Turn ("first question") ++ c4Turn ("second question") ++
  c4Turn ("third question") ++ c4Turn ("fourth question") ++
  c4Turn ("fifth question") ++ c4Turn ("sixth question") ++
  [Event.transcript 0 true ("seventh question"), Event.utteranceEnd 0]

/-- A session mid-turn whose caller turn is the last history entry. -/
def c5State : SessionState :=
  { initState 0 with
    isProcessing := true
    pendingTurn := some ("I want to buy a condo")
    conversationHistory := [⟨"user", "I want to buy a condo"⟩] }

/-- A concrete GPT oracle for the two-session world. -/
def c6Gpt : String → String := fun t => String.append ("reply to ") t

/-- Session A starts its call and speaks; no other call starts. -/
def c6TraceA : List CEvent :=
  [CEvent.gatherResponse ("CA_A"), CEvent.transcriptFor true ("hello")]

/-- The same events of session A, interleaved with session B starting its
call before A speaks. -/
def c6TraceB : List CEvent :=
  [CEvent.gatherResponse ("CA_A"), CEvent.gatherResponse ("CA_B"),
   CEvent.transcriptFor true ("hello")]

/- ===================== Theorems: parseMemoryUpdate (C10) ============== -/

theorem memSet_name (m : Memory) (k v : String) :
    (memSet m k v).name = if k = ("name") then some v else m.name := by
  unfold memSet
  split_ifs <;> rfl

theorem memSet_email (m : Memory) (k v : String) :
    (memSet m k v).email = if k = ("email") then some v else m.email := by
  unfold memSet
  split_ifs <;> first | rfl | simp_all

theorem memSet_phone (m : Memory) (k v : String) :
    (memSet m k v).phone = if k = ("phone") then some v else m.phone := by
  unfold memSet
  split_ifs <;> first | rfl | simp_all

theorem memSet_intent (m : Memory) (k v : String) :
    (memSet m k v).intent = if k = ("intent") then some v else m.intent := by
  unfold memSet
  split_ifs <;> first | rfl | simp_all

theorem memSet_budget (m : Memory) (k v : String) :
    (memSet m k v).budget = if k = ("budget") then some v else m.budget := by
  unfold memSet
  split_ifs <;> first | rfl | simp_all

theorem memSet_location (m : Memory) (k v : String) :
    (memSet m k v).location = if k = ("location") then some v else m.location := by
  unfold memSet
  split_ifs <;> first | rfl | simp_all

theorem memSet_timeline (m : Memory) (k v : String) :
    (memSet m k v).timeline = if k = ("timeline") then some v else m.timeline := by
  unfold memSet
  split_ifs <;> first | rfl | simp_all

theorem memGet_memSet_ne (m : Memory) (k1 k2 v : String) (h : k1 ≠ k2) :
    memGet (memSet m k1 v) k2 = memGet m k2 := by
  unfold memGet
  split_ifs with h1 h2 h3 h4 h5 h6 h7
  · subst h1; rw [memSet_name, if_neg h]
  · subst h2; rw [memSet_email, if_neg h]
  · subst h3; rw [memSet_phone, if_neg h]
  · subst h4; rw [memSet_intent, if_neg h]
  · subst h5; rw [memSet_budget, if_neg h]
  · subst h6; rw [memSet_location, if_neg h]
  · subst h7; rw [memSet_timeline, if_neg h]
  · rfl

theorem applyPair_frame (m : Memory) (k pair : String)
    (h : pairUpdatesKey k pair = false) :
    memGet (applyPair m pair) k = memGet m k := by
  unfold applyPair
  unfold pairUpdatesKey at h
  cases hsp : splitChar ('=') pair.data with
  | nil => rfl
  | cons key valueParts =>
    rw [hsp] at h
    simp only at h ⊢
    cases hbk : (jsTrim (String.mk key) == k) with
    | false =>
      split
      · exact memGet_memSet_ne m _ k _ (beq_eq_false_iff_ne.mp hbk)
      · rfl
    | true =>
      rw [hbk, Bool.true_and] at h
      rw [h]
      rfl

theorem foldl_applyPair_frame (pairs : List String) (m : Memory) (k : String)
    (h : ∀ p ∈ pairs, pairUpdatesKey k p = false) :
    memGet (pairs.foldl applyPair m) k = memGet m k := by
  induction pairs generalizing m with
  | nil => rfl
  | cons p ps ih =>
    rw [List.foldl_cons, ih _ (fun q hq => h q (List.mem_cons_of_mem _ hq)),
        applyPair_frame m k p (h p (List.mem_cons_self _ _))]

/-- Claim C10: `parseMemoryUpdate` mutates only the memory keys that appear
in the first `[MEM: ...]` annotation of the reply with a schema key and a
nonempty value different from the literal `null`; every other key keeps its
previous value, and when the reply contains no annotation the memory is
entirely unchanged and the reply text is returned verbatim. -/
theorem parseMemoryUpdate_frame (response : String) (m : Memory) :
    (findMem response.data = none → parseMemoryUpdate response m = (response, m)) ∧
    (∀ pre body post k,
      findMem response.data = some (pre, body, post) →
      (∀ p ∈ (splitChar (',') (captureOf body)).map String.mk,
        pairUpdatesKey k p = false) →
      memGet (parseMemoryUpdate response m).2 k = memGet m k) := by
  constructor
  · intro h
    unfold parseMemoryUpdate
    rw [h]
  · intro pre body post k h hall
    unfold parseMemoryUpdate
    rw [h]
    exact foldl_applyPair_frame _ m k hall

/-- Witness for C10 at a concrete reply: the annotation writes `name` and
leaves `email` (not mentioned in the annotation) untouched, and an
annotation-free reply is returned verbatim with memory unchanged. -/
theorem parseMemoryUpdate_frame_witness :
    memGet (parseMemoryUpdate ("[MEM: name=Jean, budget=null] Bonjour") initialMemory).2 ("email")
      = memGet initialMemory ("email") ∧
    parseMemoryUpdate ("Bonjour tout le monde") initialMemory
      = (("Bonjour tout le monde"), initialMemory) :=
  ⟨(parseMemoryUpdate_frame ("[MEM: name=Jean, budget=null] Bonjour") initialMemory).2
      [] ((" name=Jean, budget=null").data) ((" Bonjour").data) ("email")
      (by decide) (by decide),
    (parseMemoryUpdate_frame ("Bonjour tout le monde") initialMemory).1 (by decide)⟩

/- ===================== Theorems: single flight (C2) =================== -/

theorem handleStart_of_processing (st : SessionState) (text : String)
    (h : st.isProcessing = true) :
    handleUserUtteranceStart st text = (st, []) := by
  unfold handleUserUtteranceStart
  split_ifs <;> rfl

theorem handleStart_fields (st : SessionState) (text : String) :
    ((handleUserUtteranceStart st text).1 = st ∧
      (handleUserUtteranceStart st text).2 = []) ∨
    (st.isProcessing = false ∧ ¬ text.length < MIN_CHARS ∧
      (handleUserUtteranceStart st text).1.isProcessing = true ∧
      (handleUserUtteranceStart st text).1.pendingTurn = some text ∧
      (handleUserUtteranceStart st text).1.conversationHistory
        = st.conversationHistory ++ [⟨"user", text⟩] ∧
      (handleUserUtteranceStart st text).1.memory = st.memory ∧
      (handleUserUtteranceStart st text).1.utteranceBuffer = st.utteranceBuffer ∧
      (handleUserUtteranceStart st text).1.armed = st.armed ∧
      (handleUserUtteranceStart st text).2 = [SAction.startGen text]) := by
  unfold handleUserUtteranceStart
  split_ifs with h1 h2
  · left; exact ⟨rfl, rfl⟩
  · left; exact ⟨rfl, rfl⟩
  · right
    exact ⟨by simpa using h2, h1, rfl, rfl, rfl, rfl, rfl, rfl, rfl⟩

theorem step_inv_balance (st : SessionState) (e : Event) (h : FlightInv st) :
    FlightInv (step st e).1 ∧
    countReply (step st e).2 + flight (step st e).1
      = countStart (step st e).2 + flight st := by
  unfold FlightInv at h
  cases e with
  | transcript t isFinal text =>
    simp only [step]
    split_ifs <;> exact ⟨h, by simp [countReply, countStart, flight]⟩
  | utteranceEnd t =>
    simp only [step]
    by_cases hbuf : jsTrim st.utteranceBuffer = ("")
    · simp only [if_pos hbuf]
      exact ⟨h, by simp [countReply, countStart, flight]⟩
    · simp only [if_neg hbuf]
      rcases handleStart_fields { st with armed := none, utteranceBuffer := ("") }
          (jsTrim st.utteranceBuffer) with ⟨hst, ha⟩ | ⟨hidle, _, hi, hp, _, _, _, _, ha⟩
      · constructor
        · rw [hst]
          exact h
        · rw [ha, hst]
          simp [countReply, countStart, flight]
      · constructor
        · show _ = _
          rw [hi, hp]
          rfl
        · have hfalse : st.isProcessing = false := hidle
          rw [ha]
          simp only [countReply, countStart]
          unfold flight
          rw [hi, hfalse]
          simp
  | safetyFire t g =>
    simp only [step]
    cases harm : st.armed with
    | none => exact ⟨h, by simp [countReply, countStart, flight]⟩
    | some gd =>
      obtain ⟨g2, d⟩ := gd
      by_cases hg : g = g2
      · simp only [if_pos hg]
        by_cases hbuf : jsTrim st.utteranceBuffer = ("")
        · simp only [if_pos hbuf]
          exact ⟨h, by simp [countReply, countStart, flight]⟩
        · simp only [if_neg hbuf]
          rcases handleStart_fields { st with armed := none }
              (jsTrim st.utteranceBuffer) with ⟨hst, ha⟩ | ⟨hidle, _, hi, hp, _, _, _, _, ha⟩
          · constructor
            · show (handleUserUtteranceStart { st with armed := none }
                  (jsTrim st.utteranceBuffer)).1.isProcessing = _
              rw [hst]
              exact h
            · rw [ha, hst]
              simp [countReply, countStart, flight]
          · constructor
            · show _ = _
              rw [hi, hp]
              rfl
            · have hfalse : st.isProcessing = false := hidle
              rw [ha]
              simp only [countReply, countStart]
              unfold flight
              rw [hi, hfalse]
              simp
      · simp only [if_neg hg]
        exact ⟨h, by simp [countReply, countStart, flight]⟩
  | gptReturn t r =>
    simp only [step]
    cases hp : st.pendingTurn with
    | none => exact ⟨h.trans (by rw [hp]), by simp [countReply, countStart, flight]⟩
    | some txt =>
      rw [hp] at h
      constructor
      · rfl
      · simp [countReply, countStart, flight, h]

theorem countReply_append (a b : List SAction) :
    countReply (a ++ b) = countReply a + countReply b := by
  induction a with
  | nil => simp [countReply]
  | cons x xs ih => cases x <;> simp [countReply, ih] <;> omega

theorem countStart_append (a b : List SAction) :
    countStart (a ++ b) = countStart a + countStart b := by
  induction a with
  | nil => simp [countStart]
  | cons x xs ih => cases x <;> simp [countStart, ih] <;> omega

theorem countFinalize_append (a b : List SAction) :
    countFinalize (a ++ b) = countFinalize a + countFinalize b := by
  induction a with
  | nil => simp [countFinalize]
  | cons x xs ih => cases x <;> simp [countFinalize, ih] <;> omega

theorem run_inv_balance (st : SessionState) (evs : List Event) (h : FlightInv st) :
    FlightInv (run st evs).1 ∧
    countReply (run st evs).2 + flight (run st evs).1
      = countStart (run st evs).2 + flight st := by
  induction evs generalizing st with
  | nil => exact ⟨h, rfl⟩
  | cons e es ih =>
    simp only [run]
    obtain ⟨h1, b1⟩ := step_inv_balance st e h
    obtain ⟨h2, b2⟩ := ih (step st e).1 h1
    refine ⟨h2, ?_⟩
    rw [countReply_append, countStart_append]
    omega

/-- Claim C2: while a turn is in flight, a further call of
`handleUserUtterance` is a silent no-op (state unchanged, no generation
started); along any event sequence the number of in-flight turns
(generations started minus replies emitted) never exceeds one; and the GPT
completion always returns the session to idle (never stuck processing). -/
theorem single_flight (st : SessionState) (text : String) (evs : List Event)
    (t : Nat) (r : Option String) (h : FlightInv st) :
    (st.isProcessing = true → handleUserUtteranceStart st text = (st, [])) ∧
    FlightInv (run st evs).1 ∧
    countReply (run st evs).2 + flight (run st evs).1
      = countStart (run st evs).2 + flight st ∧
    flight (run st evs).1 ≤ 1 ∧
    (step st (Event.gptReturn t r)).1.isProcessing = false := by
  refine ⟨fun hp => handleStart_of_processing st text hp, ?_, ?_, ?_, ?_⟩
  · exact (run_inv_balance st evs h).1
  · exact (run_inv_balance st evs h).2
  · unfold flight
    split_ifs <;> omega
  · simp only [step]
    cases hp : st.pendingTurn with
    | none =>
      unfold FlightInv at h
      rw [hp] at h
      simpa using h
    | some txt => rfl

/-- Witness for C2 at a mid-turn state: the session is processing, the
gate is a no-op and the pending GPT completion returns it to idle. -/
theorem single_flight_witness :
    stMidTurn.isProcessing = true ∧
    handleUserUtteranceStart stMidTurn ("one more utterance") = (stMidTurn, []) ∧
    (step stMidTurn (Event.gptReturn 500 (some ("OK")))).1.isProcessing = false :=
  ⟨by decide,
    (single_flight stMidTurn ("one more utterance") [] 500 (some ("OK"))
      (by show stMidTurn.isProcessing = stMidTurn.pendingTurn.isSome; decide)).1 (by decide),
    (single_flight stMidTurn ("one more utterance") [] 500 (some ("OK"))
      (by show stMidTurn.isProcessing = stMidTurn.pendingTurn.isSome; decide)).2.2.2.2⟩

/- ===================== Theorems: minimum length (C9) ================== -/

theorem handleStart_of_short (st : SessionState) (text : String)
    (h : text.length < MIN_CHARS) :
    handleUserUtteranceStart st text = (st, []) := by
  unfold handleUserUtteranceStart
  rw [if_pos h]

theorem ue_short (st : SessionState) (t : Nat)
    (hshort : (jsTrim st.utteranceBuffer).length < MIN_CHARS) :
    (step st (Event.utteranceEnd t)).1
      = { st with armed := none, utteranceBuffer := ("") } ∧
    countStart (step st (Event.utteranceEnd t)).2 = 0 ∧
    countReply (step st (Event.utteranceEnd t)).2 = 0 := by
  simp only [step]
  by_cases hbuf : jsTrim st.utteranceBuffer = ("")
  · rw [if_pos hbuf]
    exact ⟨rfl, rfl, rfl⟩
  · rw [if_neg hbuf, handleStart_of_short _ _ hshort]
    exact ⟨rfl, rfl, rfl⟩

theorem fire_short (st : SessionState) (t g : Nat)
    (hshort : (jsTrim st.utteranceBuffer).length < MIN_CHARS) :
    countStart (step st (Event.safetyFire t g)).2 = 0 ∧
    countReply (step st (Event.safetyFire t g)).2 = 0 ∧
    (step st (Event.safetyFire t g)).1.conversationHistory = st.conversationHistory ∧
    (step st (Event.safetyFire t g)).1.memory = st.memory ∧
    (step st (Event.safetyFire t g)).1.isProcessing = st.isProcessing := by
  simp only [step]
  cases harm : st.armed with
  | none => exact ⟨rfl, rfl, rfl, rfl, rfl⟩
  | some gd =>
    obtain ⟨g2, d⟩ := gd
    by_cases hg : g = g2
    · simp only [if_pos hg]
      by_cases hbuf : jsTrim st.utteranceBuffer = ("")
      · simp only [if_pos hbuf]
        refine ⟨?_, ?_, ?_, ?_, ?_⟩ <;> trivial
      · simp only [if_neg hbuf]
        rw [handleStart_of_short _ _ hshort]
        refine ⟨?_, ?_, ?_, ?_, ?_⟩ <;> trivial
    · simp only [if_neg hg]
      refine ⟨?_, ?_, ?_, ?_, ?_⟩ <;> trivial

/-- Claim C9: an Utterance shorter than the minimum-length threshold, or
all-whitespace after trimming (then its trimmed length is zero), never
reaches turn processing: `handleUserUtterance` returns without touching the
state, and finalization via the provider boundary or the safety timer
appends nothing to the history, starts no generation and emits no reply. -/
theorem min_length_gate (st : SessionState) (text : String) (t g : Nat)
    (htext : text.length < MIN_CHARS)
    (hshort : (jsTrim st.utteranceBuffer).length < MIN_CHARS) :
    handleUserUtteranceStart st text = (st, []) ∧
    countStart (step st (Event.utteranceEnd t)).2 = 0 ∧
    countReply (step st (Event.utteranceEnd t)).2 = 0 ∧
    (step st (Event.utteranceEnd t)).1.conversationHistory = st.conversationHistory ∧
    (step st (Event.utteranceEnd t)).1.memory = st.memory ∧
    (step st (Event.utteranceEnd t)).1.isProcessing = st.isProcessing ∧
    countStart (step st (Event.safetyFire t g)).2 = 0 ∧
    (step st (Event.safetyFire t g)).1.conversationHistory = st.conversationHistory ∧
    (step st (Event.safetyFire t g)).1.memory = st.memory := by
  obtain ⟨h1, h2, h3⟩ := ue_short st t hshort
  obtain ⟨f1, f2, f3, f4, f5⟩ := fire_short st t g hshort
  exact ⟨handleStart_of_short st text htext, h2, h3,
    by rw [h1], by rw [h1], by rw [h1], f1, f3, f4⟩

/-- Witness for C9 at a concrete state whose buffer trims to a two-letter
word: the gate drops it without any state change. -/
theorem min_length_gate_witness :
    handleUserUtteranceStart c9State ("oui") = (c9State, []) ∧
    countStart (step c9State (Event.utteranceEnd 10)).2 = 0 ∧
    (step c9State (Event.utteranceEnd 10)).1.conversationHistory
      = c9State.conversationHistory :=
  ⟨(min_length_gate c9State ("oui") 10 1 (by decide) (by decide)).1,
   (min_length_gate c9State ("oui") 10 1 (by decide) (by decide)).2.1,
   (min_length_gate c9State ("oui") 10 1 (by decide) (by decide)).2.2.2.1⟩

/- ============== Theorems: boundary signal wins over timer (C3) ======== -/

theorem ue_armed_none (st : SessionState) (t : Nat) :
    (step st (Event.utteranceEnd t)).1.armed = none := by
  simp only [step]
  by_cases hbuf : jsTrim st.utteranceBuffer = ("")
  · rw [if_pos hbuf]
  · rw [if_neg hbuf]
    rcases handleStart_fields { st with armed := none, utteranceBuffer := ("") }
        (jsTrim st.utteranceBuffer) with ⟨hst, _⟩ | ⟨_, _, _, _, _, _, _, harm2, _⟩
    · rw [hst]
    · exact harm2

theorem fire_unarmed (st : SessionState) (t g : Nat) (h : st.armed = none) :
    step st (Event.safetyFire t g) = (st, []) := by
  simp only [step]
  rw [h]

theorem ue_finalize_once (st : SessionState) (t : Nat)
    (hne : jsTrim st.utteranceBuffer ≠ ("")) :
    countFinalize (step st (Event.utteranceEnd t)).2 = 1 ∧
    (step st (Event.utteranceEnd t)).2.head?
      = some (SAction.finalize (jsTrim st.utteranceBuffer)) := by
  simp only [step]
  rw [if_neg hne]
  rcases handleStart_fields { st with armed := none, utteranceBuffer := ("") }
      (jsTrim st.utteranceBuffer) with ⟨_, ha⟩ | ⟨_, _, _, _, _, _, _, _, ha⟩ <;>
    rw [ha] <;> exact ⟨rfl, rfl⟩

/-- Claim C3: when the provider end-of-speech signal arrives before the
pending safety timer's deadline, exactly one finalization of the
accumulated Utterance occurs: the boundary handler finalizes the trimmed
buffer once and clears the timer, and any subsequent firing of the
cancelled timer is a complete no-op, so the same accumulated text is never
finalized twice. -/
theorem provider_signal_preempts (st : SessionState) (g d tU tF : Nat)
    (harm : st.armed = some (g, d)) (hne : jsTrim st.utteranceBuffer ≠ (""))
    (hbefore : tU < d) :
    countFinalize (run st [Event.utteranceEnd tU, Event.safetyFire tF g]).2 = 1 ∧
    (run st [Event.utteranceEnd tU, Event.safetyFire tF g]).2.head?
      = some (SAction.finalize (jsTrim st.utteranceBuffer)) ∧
    (step st (Event.utteranceEnd tU)).1.armed = none ∧
    (∀ tF2 g2, step (step st (Event.utteranceEnd tU)).1 (Event.safetyFire tF2 g2)
      = ((step st (Event.utteranceEnd tU)).1, [])) := by
  have h2 := ue_armed_none st tU
  have hfire : ∀ tF2 g2,
      step (step st (Event.utteranceEnd tU)).1 (Event.safetyFire tF2 g2)
        = ((step st (Event.utteranceEnd tU)).1, []) :=
    fun tF2 g2 => fire_unarmed _ tF2 g2 h2
  refine ⟨?_, ?_, h2, hfire⟩
  · simp only [run, hfire tF g, List.append_nil]
    exact (ue_finalize_once st tU hne).1
  · simp only [run, hfire tF g, List.append_nil]
    exact (ue_finalize_once st tU hne).2

/-- Witness for C3 at a concrete session with a pending timer of deadline
3000 and a buffered utterance, with the boundary signal at time 100. -/
theorem provider_signal_preempts_witness :
    countFinalize (run c3State [Event.utteranceEnd 100, Event.safetyFire 3000 1]).2 = 1 ∧
    (step c3State (Event.utteranceEnd 100)).1.armed = none :=
  ⟨(provider_signal_preempts c3State 1 3000 100 3000
      (by decide) (by decide) (by decide)).1,
   (provider_signal_preempts c3State 1 3000 100 3000
      (by decide) (by decide) (by decide)).2.2.1⟩

/- ============== Theorems: safety-timer reset on fragments (C7) ======== -/

/-- Counterexample to C7 as stated: in a session with a pending safety
timer armed at time 0 (generation 1, deadline 3000), the arrival of a
nonempty interim TranscriptFragment at time 100 leaves the state — and in
particular the armed timer — completely unchanged: the timer is not
cleared and not re-armed (a reset at time 100 would give deadline
100 + SAFETY_TIMEOUT = 3100, not 3000).  Only final fragments reset the
timer (`src/server.js` lines 384-393 run under `if (data.is_final)`). -/
theorem interim_does_not_reset_timer :
    c7State.armed = some (1, 3000) ∧
    step c7State (Event.transcript 100 false ("more words")) = (c7State, []) ∧
    (step c7State (Event.transcript 100 false ("more words"))).1.armed
      = some (1, 3000) ∧
    100 + SAFETY_TIMEOUT ≠ 3000 := by
  refine ⟨by decide, by decide, by decide, by decide⟩

theorem fire_wrong_gen (st : SessionState) (t g g2 d : Nat)
    (harm : st.armed = some (g2, d)) (hg : g ≠ g2) :
    step st (Event.safetyFire t g) = (st, []) := by
  simp only [step]
  rw [harm]
  simp only [if_neg hg]

/-- Claim C7 as amended: on every arrival of a nonempty final
TranscriptFragment in a session with a pending safety timer, the timer is
atomically reset — cleared and re-armed with a fresh generation for its
full duration from the arrival time — and a firing of the old (cleared)
generation is a no-op; an interim fragment arrival leaves the timer (and
the whole session state) untouched. -/
theorem final_fragment_resets_timer (st : SessionState) (t t2 g d : Nat)
    (text : String) (hne : text ≠ ("")) (harm : st.armed = some (g, d))
    (hg : g ≠ st.timerGen + 1) :
    (step st (Event.transcript t true text)).1.armed
      = some (st.timerGen + 1, t + SAFETY_TIMEOUT) ∧
    step (step st (Event.transcript t true text)).1 (Event.safetyFire t2 g)
      = ((step st (Event.transcript t true text)).1, []) ∧
    (∀ itext : String, step st (Event.transcript t2 false itext) = (st, [])) := by
  have hstep : (step st (Event.transcript t true text)).1.armed
      = some (st.timerGen + 1, t + SAFETY_TIMEOUT) := by
    simp only [step]
    rw [if_neg hne]
    rfl
  refine ⟨hstep, fire_wrong_gen _ t2 g (st.timerGen + 1) (t + SAFETY_TIMEOUT) hstep hg, ?_⟩
  · intro itext
    simp only [step]
    by_cases hit : itext = ("")
    · rw [if_pos hit]
    · rw [if_neg hit]
      rfl

/-- Witness for the amended C7 at the concrete pending-timer session. -/
theorem final_fragment_resets_timer_witness :
    (step c7State (Event.transcript 200 true ("and more"))).1.armed
      = some (2, 200 + SAFETY_TIMEOUT) :=
  (final_fragment_resets_timer c7State 200 250 1 3000 ("and more")
    (by decide) (by decide) (by decide)).1

/- ========== Theorems: one reply per finalized utterance (C1) ========== -/

/-- Counterexample to C1 as stated: in the trace `c1Events`, the second
Utterance ("wait actually I changed my mind", 31 characters, well above the
minimum) is finalized by the provider boundary signal at time 300 while the
first turn's GPT call is still in flight.  The single-flight gate returns
without queueing it and the boundary handler has already emptied the
buffer, so the whole trace contains two finalizations but only one started
generation and one emitted reply; afterwards the session is idle with an
empty buffer and no pending turn, and the dropped text appears nowhere in
the history — the second finalized Utterance can never receive a reply. -/
theorem inflight_finalized_utterance_dropped :
    countFinalize (run (initState 0) c1Events).2 = 2 ∧
    countStart (run (initState 0) c1Events).2 = 1 ∧
    countReply (run (initState 0) c1Events).2 = 1 ∧
    (run (initState 0) c1Events).1.isProcessing = false ∧
    (run (initState 0) c1Events).1.pendingTurn = none ∧
    (run (initState 0) c1Events).1.utteranceBuffer = ("") ∧
    ((run (initState 0) c1Events).1.conversationHistory.map
        HistEntry.content).contains ("wait actually I changed my mind") = false := by
  refine ⟨by decide, by decide, by decide, by decide, by decide, by decide, by decide⟩

theorem handleStart_accept (st : SessionState) (text : String)
    (hlen : ¬ text.length < MIN_CHARS) (hidle : st.isProcessing = false) :
    handleUserUtteranceStart st text
      = ({ st with
            isProcessing := true
            conversationHistory := st.conversationHistory ++ [⟨"user", text⟩]
            pendingTurn := some text }, [SAction.startGen text]) := by
  unfold handleUserUtteranceStart
  rw [if_neg hlen, if_neg (by simp [hidle])]

/-- Claim C1 as amended: a finalized Utterance that meets the
minimum-length policy and arrives while the session is idle starts exactly
one generation and yields exactly one emitted reply, with Memory updated
exactly once (by the single `parseMemoryUpdate` of the raw reply) when the
turn completes, after which the session is idle again.  A finalized
Utterance arriving while a turn is still in flight is silently dropped:
no generation starts, history and memory are untouched, and the buffer is
emptied, so that Utterance never receives a reply. -/
theorem turn_reply_and_memory_once (st : SessionState) (tU tG : Nat)
    (r : Option String) (hidle : st.isProcessing = false)
    (hlen : ¬ (jsTrim st.utteranceBuffer).length < MIN_CHARS) :
    countStart (run st [Event.utteranceEnd tU, Event.gptReturn tG r]).2 = 1 ∧
    countReply (run st [Event.utteranceEnd tU, Event.gptReturn tG r]).2 = 1 ∧
    (run st [Event.utteranceEnd tU, Event.gptReturn tG r]).1.isProcessing = false ∧
    (run st [Event.utteranceEnd tU, Event.gptReturn tG r]).1.memory
      = (parseMemoryUpdate (rawReplyOf r) st.memory).2 ∧
    (∀ st2 : SessionState, ∀ t3 : Nat, st2.isProcessing = true →
      countStart (step st2 (Event.utteranceEnd t3)).2 = 0 ∧
      (step st2 (Event.utteranceEnd t3)).1.conversationHistory
        = st2.conversationHistory ∧
      (step st2 (Event.utteranceEnd t3)).1.memory = st2.memory ∧
      (step st2 (Event.utteranceEnd t3)).1.utteranceBuffer = ("")) := by
  have hne : jsTrim st.utteranceBuffer ≠ ("") := by
    intro he
    rw [he] at hlen
    exact hlen (by decide)
  have e1 : step st (Event.utteranceEnd tU)
      = ({ st with
            armed := none
            utteranceBuffer := ("")
            isProcessing := true
            conversationHistory
              := st.conversationHistory ++ [⟨"user", jsTrim st.utteranceBuffer⟩]
            pendingTurn := some (jsTrim st.utteranceBuffer) },
          [SAction.finalize (jsTrim st.utteranceBuffer),
           SAction.startGen (jsTrim st.utteranceBuffer)]) := by
    simp only [step]
    rw [if_neg hne,
      handleStart_accept { st with armed := none, utteranceBuffer := ("") }
        (jsTrim st.utteranceBuffer) hlen hidle]
  refine ⟨?_, ?_, ?_, ?_, ?_⟩
  · simp only [run, e1]
    rfl
  · simp only [run, e1]
    rfl
  · simp only [run, e1]
    rfl
  · simp only [run, e1]
    rfl
  · intro st2 t3 hp2
    simp only [step]
    by_cases hb : jsTrim st2.utteranceBuffer = ("")
    · rw [if_pos hb]
      exact ⟨rfl, rfl, rfl, rfl⟩
    · rw [if_neg hb,
        handleStart_of_processing { st2 with armed := none, utteranceBuffer := ("") }
          (jsTrim st2.utteranceBuffer) hp2]
      exact ⟨rfl, rfl, rfl, rfl⟩

/-- Witness for the amended C1 at an idle session with a buffered
qualifying utterance: one generation starts and one reply is emitted. -/
theorem turn_reply_and_memory_once_witness :
    countStart (run c1IdleState
      [Event.utteranceEnd 0, Event.gptReturn 1 (some ("Bien sûr!"))]).2 = 1 ∧
    countReply (run c1IdleState
      [Event.utteranceEnd 0, Event.gptReturn 1 (some ("Bien sûr!"))]).2 = 1 :=
  ⟨(turn_reply_and_memory_once c1IdleState 0 1 (some ("Bien sûr!"))
      (by decide) (by decide)).1,
   (turn_reply_and_memory_once c1IdleState 0 1 (some ("Bien sûr!"))
      (by decide) (by decide)).2.1⟩

/- ================= Theorems: bounded history (C4) ===================== -/

/-- Counterexample to C4 as stated: after six complete exchanges the
history holds exactly MAX_HISTORY entries, and while the seventh turn's
GPT call is in flight the caller turn has already been pushed, so the
history observably holds MAX_HISTORY + 1 entries — and this longer list is
exactly what the in-flight `askGPT` call consumes.  The cap is only
restored when the reply is appended and the oldest exchange spliced off. -/
theorem history_exceeds_cap_in_flight :
    (run (initState 0) c4Trace).1.conversationHistory.length = MAX_HISTORY + 1 ∧
    MAX_HISTORY < (run (initState 0) c4Trace).1.conversationHistory.length ∧
    (run (initState 0) c4Trace).1.isProcessing = true := by
  refine ⟨by decide, by decide, by decide⟩

theorem gpt_no_pending (st : SessionState) (t : Nat) (r : Option String)
    (h : st.pendingTurn = none) : step st (Event.gptReturn t r) = (st, []) := by
  simp only [step]
  rw [h]

theorem pairsForm_append_pair : ∀ (l : List HistEntry) (u a : HistEntry),
    pairsForm l = true → u.role = ("user") → a.role = ("assistant") →
    pairsForm (l ++ [u, a]) = true
  | [], u, a, _, hu, ha => by simp [pairsForm, hu, ha]
  | [x], _, _, h, _, _ => by simp [pairsForm] at h
  | x :: y :: rest, u, a, h, hu, ha => by
    simp only [pairsForm, Bool.and_eq_true, beq_iff_eq] at h
    simp only [List.cons_append, pairsForm, Bool.and_eq_true, beq_iff_eq]
    exact ⟨⟨h.1.1, h.1.2⟩, pairsForm_append_pair rest u a h.2 hu ha⟩

theorem pairsForm_drop_two (l : List HistEntry) (h : pairsForm l = true) :
    pairsForm (l.drop 2) = true := by
  match l, h with
  | [], _ => exact rfl
  | [x], h => simp [pairsForm] at h
  | x :: y :: rest, h =>
    simp only [pairsForm, Bool.and_eq_true] at h
    simpa using h.2

theorem pairsForm_roles (l : List HistEntry) (h : pairsForm l = true)
    (hne : l ≠ []) :
    (l.map HistEntry.role).take 2 = [("user"), ("assistant")] := by
  match l, h, hne with
  | [], _, hne => exact absurd rfl hne
  | [x], h, _ => simp [pairsForm] at h
  | x :: y :: rest, h, _ =>
    simp only [pairsForm, Bool.and_eq_true, beq_iff_eq] at h
    simp [h.1.1, h.1.2]

/-- Claim C4 as amended: at every turn boundary (session idle, nothing
pending) the conversation history is a sequence of complete caller/reply
exchanges of length at most MAX_HISTORY, and processing one full turn
preserves this; when the turn pushes the history past the cap, exactly the
two oldest entries — one caller turn and one reply turn, the oldest
complete exchange — are spliced off, and nothing else.  The
instruction/context preamble is never evicted because it is not stored in
the history at all: `askGPT` prepends the system prompt to the history on
every call (`src/server.js` line 199).  While the turn is in flight the
history transiently holds MAX_HISTORY + 1 entries (the caller turn
awaiting its reply); the cap is restored when the reply is appended. -/
theorem history_cap (st : SessionState) (tU tG : Nat) (r : Option String)
    (hidle : st.isProcessing = false) (hpend : st.pendingTurn = none)
    (hpf : pairsForm st.conversationHistory = true)
    (hlen : st.conversationHistory.length ≤ MAX_HISTORY) :
    pairsForm
      (run st [Event.utteranceEnd tU, Event.gptReturn tG r]).1.conversationHistory
      = true ∧
    (run st [Event.utteranceEnd tU, Event.gptReturn tG r]).1.conversationHistory.length
      ≤ MAX_HISTORY ∧
    (st.conversationHistory.length = MAX_HISTORY →
      ¬ (jsTrim st.utteranceBuffer).length < MIN_CHARS →
      ((run st [Event.utteranceEnd tU, Event.gptReturn tG r]).1.conversationHistory
        = st.conversationHistory.drop 2
          ++ [⟨"user", jsTrim st.utteranceBuffer⟩,
              ⟨"assistant", (parseMemoryUpdate (rawReplyOf r) st.memory).1⟩] ∧
        (st.conversationHistory.map HistEntry.role).take 2
          = [("user"), ("assistant")])) := by
  have hM : MAX_HISTORY = 12 := rfl
  by_cases hshort : (jsTrim st.utteranceBuffer).length < MIN_CHARS
  · have hu := (ue_short st tU hshort).1
    have hp1 : (step st (Event.utteranceEnd tU)).1.pendingTurn = none := by
      rw [hu]
      exact hpend
    have hfin : (run st [Event.utteranceEnd tU, Event.gptReturn tG r]).1.conversationHistory
        = st.conversationHistory := by
      simp only [run, gpt_no_pending _ tG r hp1]
      rw [hu]
    rw [hfin]
    exact ⟨hpf, hlen, fun _ h2 => absurd hshort h2⟩
  · have hne : jsTrim st.utteranceBuffer ≠ ("") := by
      intro he
      rw [he] at hshort
      exact hshort (by decide)
    have e1 : step st (Event.utteranceEnd tU)
        = ({ st with
              armed := none
              utteranceBuffer := ("")
              isProcessing := true
              conversationHistory
                := st.conversationHistory ++ [⟨"user", jsTrim st.utteranceBuffer⟩]
              pendingTurn := some (jsTrim st.utteranceBuffer) },
            [SAction.finalize (jsTrim st.utteranceBuffer),
             SAction.startGen (jsTrim st.utteranceBuffer)]) := by
      simp only [step]
      rw [if_neg hne,
        handleStart_accept { st with armed := none, utteranceBuffer := ("") }
          (jsTrim st.utteranceBuffer) hshort hidle]
    have hrun : (run st [Event.utteranceEnd tU, Event.gptReturn tG r]).1.conversationHistory
        = (if MAX_HISTORY <
              ((st.conversationHistory ++ [(⟨"user", jsTrim st.utteranceBuffer⟩ : HistEntry)])
                ++ [(⟨"assistant", (parseMemoryUpdate (rawReplyOf r) st.memory).1⟩ : HistEntry)]).length
            then ((st.conversationHistory ++ [(⟨"user", jsTrim st.utteranceBuffer⟩ : HistEntry)])
                ++ [(⟨"assistant", (parseMemoryUpdate (rawReplyOf r) st.memory).1⟩ : HistEntry)]).drop 2
            else (st.conversationHistory ++ [(⟨"user", jsTrim st.utteranceBuffer⟩ : HistEntry)])
                ++ [(⟨"assistant", (parseMemoryUpdate (rawReplyOf r) st.memory).1⟩ : HistEntry)]) := by
      simp only [run, e1]
      rfl
    have hlen12 : ((st.conversationHistory ++ [(⟨"user", jsTrim st.utteranceBuffer⟩ : HistEntry)])
        ++ [(⟨"assistant", (parseMemoryUpdate (rawReplyOf r) st.memory).1⟩ : HistEntry)]).length
        = st.conversationHistory.length + 2 := by
      simp
    rw [hlen12] at hrun
    by_cases hbig : MAX_HISTORY < st.conversationHistory.length + 2
    · rw [if_pos hbig] at hrun
      have hL2 : 2 ≤ st.conversationHistory.length := by omega
      have hdrop : ((st.conversationHistory ++ [(⟨"user", jsTrim st.utteranceBuffer⟩ : HistEntry)])
          ++ [(⟨"assistant", (parseMemoryUpdate (rawReplyOf r) st.memory).1⟩ : HistEntry)]).drop 2
          = st.conversationHistory.drop 2
            ++ [(⟨"user", jsTrim st.utteranceBuffer⟩ : HistEntry),
                ⟨"assistant", (parseMemoryUpdate (rawReplyOf r) st.memory).1⟩] := by
        rw [List.drop_append_of_le_length (by simp; omega),
          List.drop_append_of_le_length hL2]
        simp
      rw [hrun, hdrop]
      refine ⟨?_, ?_, ?_⟩
      · have h2 := pairsForm_drop_two st.conversationHistory hpf
        simpa using pairsForm_append_pair (st.conversationHistory.drop 2)
          ⟨"user", jsTrim st.utteranceBuffer⟩
          ⟨"assistant", (parseMemoryUpdate (rawReplyOf r) st.memory).1⟩ h2 rfl rfl
      · simp
        omega
      · intro h1 _
        refine ⟨rfl, ?_⟩
        refine pairsForm_roles st.conversationHistory hpf ?_
        intro hnil
        rw [hnil] at h1
        simp [hM] at h1
    · rw [if_neg hbig] at hrun
      rw [hrun]
      refine ⟨?_, ?_, ?_⟩
      · have hs : (st.conversationHistory ++ [(⟨"user", jsTrim st.utteranceBuffer⟩ : HistEntry)])
            ++ [(⟨"assistant", (parseMemoryUpdate (rawReplyOf r) st.memory).1⟩ : HistEntry)]
            = st.conversationHistory
              ++ [⟨"user", jsTrim st.utteranceBuffer⟩,
                  ⟨"assistant", (parseMemoryUpdate (rawReplyOf r) st.memory).1⟩] := by
          simp
        rw [hs]
        exact pairsForm_append_pair st.conversationHistory _ _ hpf rfl rfl
      · simp
        omega
      · intro h1 _
        exfalso
        omega

/-- Witness for the amended C4 at a full twelve-entry history: the turn
evicts the oldest exchange and the cap and pair structure are preserved. -/
theorem history_cap_witness :
    (run c4State
      [Event.utteranceEnd 0, Event.gptReturn 1 (some ("Parfait!"))]).1.conversationHistory.length
      ≤ MAX_HISTORY ∧
    pairsForm (run c4State
      [Event.utteranceEnd 0, Event.gptReturn 1 (some ("Parfait!"))]).1.conversationHistory
      = true :=
  ⟨(history_cap c4State 0 1 (some ("Parfait!"))
      (by decide) (by decide) (by decide) (by decide)).2.1,
   (history_cap c4State 0 1 (some ("Parfait!"))
      (by decide) (by decide) (by decide) (by decide)).1⟩

/- ============== Theorems: reply-generation failure (C5) =============== -/

theorem findMem_fallback : findMem FALLBACK_REPLY.data = none := by decide

theorem parse_fallback (m : Memory) :
    parseMemoryUpdate FALLBACK_REPLY m = (FALLBACK_REPLY, m) := by
  unfold parseMemoryUpdate
  rw [findMem_fallback]

/-- Claim C5: when the in-flight reply generation throws, `askGPT` returns
the fixed apology string, and the turn still completes: exactly that
fallback is emitted as the one reply of the turn (one response, not zero),
the caller turn — already appended on acceptance — stays in the history,
memory is untouched (the apology carries no annotation), and the session
returns to idle.  Delivery in this variant is the reply-emission point
(`src/server.js` lines 332-337, where the TTS hand-off is marked). -/
theorem gpt_failure_fallback (st : SessionState) (tG : Nat) (h0 : List HistEntry)
    (utext : String) (hpend : st.pendingTurn = some utext)
    (hhist : st.conversationHistory = h0 ++ [⟨"user", utext⟩]) :
    (step st (Event.gptReturn tG none)).2 = [SAction.emitReply FALLBACK_REPLY] ∧
    (step st (Event.gptReturn tG none)).1.isProcessing = false ∧
    (step st (Event.gptReturn tG none)).1.memory = st.memory ∧
    (⟨"user", utext⟩ : HistEntry)
      ∈ (step st (Event.gptReturn tG none)).1.conversationHistory := by
  have hM : MAX_HISTORY = 12 := rfl
  simp only [step]
  rw [hpend]
  simp only [rawReplyOf, parse_fallback]
  refine ⟨trivial, trivial, trivial, ?_⟩
  rw [hhist]
  split
  · next hc =>
    have h2 : 2 ≤ h0.length := by
      simp only [List.length_append, List.length_cons, List.length_nil] at hc
      omega
    rw [List.drop_append_of_le_length (by simp; omega),
      List.drop_append_of_le_length h2]
    simp
  · simp

/-- Witness for C5 at a concrete mid-turn session whose GPT call throws. -/
theorem gpt_failure_fallback_witness :
    (step c5State (Event.gptReturn 7 none)).2
      = [SAction.emitReply FALLBACK_REPLY] ∧
    (step c5State (Event.gptReturn 7 none)).1.isProcessing = false :=
  ⟨(gpt_failure_fallback c5State 7 [] ("I want to buy a condo")
      (by decide) (by decide)).1,
   (gpt_failure_fallback c5State 7 [] ("I want to buy a condo")
      (by decide) (by decide)).2.1⟩

/- ================= Theorems: TTS synthesis failure (C8) =============== -/

/-- Counterexample to C8 as stated: when both the primary (Aura) provider
and the fallback (Google) provider fail, `speak` produces no audio at all —
the second failure propagates to the caller; no precomputed generic
fallback audio exists anywhere in the router.  The Google-first variant
behaves the same way. -/
theorem both_tts_fail_propagates :
    speak ("Hello") (TTSOut.err ("aura down")) (TTSOut.err ("google down"))
      = TTSOut.err ("google down") ∧
    producesAudio
      (speak ("Hello") (TTSOut.err ("aura down")) (TTSOut.err ("google down")))
      = false ∧
    producesAudio
      (speakGoogleFirst (TTSOut.err ("google down")) (TTSOut.err ("deepgram down")))
      = false := by
  refine ⟨by decide, by decide, by decide⟩

/-- Claim C8 as amended: on nonempty text, `speak` returns the primary
(Aura) audio when it succeeds, falls back to the Google result when Aura
fails, and when both providers fail it propagates the second failure — the
caller gets no audio (there is no precomputed generic fallback). -/
theorem speak_fallback_chain (text a e1 e2 g : String)
    (hne : jsTrim text ≠ ("")) :
    speak text (TTSOut.ok a) (TTSOut.err e1) = TTSOut.ok a ∧
    speak text (TTSOut.err e1) (TTSOut.ok g) = TTSOut.ok g ∧
    speak text (TTSOut.err e1) (TTSOut.err e2) = TTSOut.err e2 ∧
    speakGoogleFirst (TTSOut.err e1) (TTSOut.err e2) = TTSOut.err e2 := by
  unfold speak speakGoogleFirst
  rw [if_neg hne, if_neg hne, if_neg hne]
  exact ⟨rfl, rfl, rfl, rfl⟩

/-- Witness for the amended C8 at concrete provider outcomes. -/
theorem speak_fallback_chain_witness :
    speak ("Bonjour") (TTSOut.err ("aura down")) (TTSOut.ok ("u.mp3"))
      = TTSOut.ok ("u.mp3") :=
  (speak_fallback_chain ("Bonjour") ("x") ("aura down") ("e2") ("u.mp3")
    (by decide)).2.1

/- ============ Theorems: cross-session independence (C6) =============== -/

/-- Counterexample to C6 as stated: the reply routed for session A's
transcript is not a function of session A's events alone.  In `c6TraceA`
(only session A active) the reply to A's transcript is routed to A's call;
in `c6TraceB` — identical events for session A, interleaved with session
B's call start — the same transcript's reply is routed to session B's
call, because routing reads the shared global `CURRENT_CALL_SID`, which
B's start overwrote. -/
theorem reply_routing_depends_on_other_session :
    (crun c6Gpt initWorld c6TraceA).2 = [(("CA_A"), ("reply to hello"))] ∧
    (crun c6Gpt initWorld c6TraceB).2 = [(("CA_B"), ("reply to hello"))] ∧
    (("CA_A") : String) ≠ ("CA_B") := by
  refine ⟨by decide, by decide, by decide⟩

/-- Claim C6 as amended: cross-session shared mutable state exists — the
global `CURRENT_CALL_SID`.  Every reply, whichever session produced the
transcript, is routed to the call currently named by that global, i.e. the
most recently started call across all sessions; overwriting the global (as
another session's call start does) redirects the routing.  Only the reply
text is a function of the transcript alone. -/
theorem reply_routed_to_global_sid (gpt : String → String) (w : World)
    (text sid : String) (hne : text ≠ ("")) (hlen : ¬ text.length < 4)
    (hA : w.hasRepliedA = false) (hB : w.hasRepliedB = false)
    (hsid : w.currentCallSid = some sid) :
    (cstep gpt w (CEvent.transcriptFor true text)).2 = [(sid, gpt text)] ∧
    (cstep gpt w (CEvent.transcriptFor false text)).2 = [(sid, gpt text)] ∧
    (∀ sid2, (cstep gpt { w with currentCallSid := some sid2 }
        (CEvent.transcriptFor true text)).2 = [(sid2, gpt text)]) := by
  refine ⟨?_, ?_, ?_⟩
  · simp only [cstep]
    rw [if_neg hne, if_neg hlen, if_neg (by simp [hA]), hsid]
    simp
  · simp only [cstep]
    rw [if_neg hne, if_neg hlen, if_neg (by simp [hB]), hsid]
    simp
  · intro sid2
    simp only [cstep]
    rw [if_neg hne, if_neg hlen, if_neg (by simp [hA])]
    simp

/-- Witness for the amended C6 at a concrete world state. -/
theorem reply_routed_to_global_sid_witness :
    (cstep c6Gpt ⟨some ("CA_Z"), false, false⟩
      (CEvent.transcriptFor true ("hello"))).2 = [(("CA_Z"), c6Gpt ("hello"))] :=
  (reply_routed_to_global_sid c6Gpt ⟨some ("CA_Z"), false, false⟩
    ("hello") ("CA_Z") (by decide) (by decide) rfl rfl rfl).1
